import Mathlib

/-!
Verification development for the MCPServer repository (weather MCP server).

The definitions below are a shallow embedding of the repository sources:
- `src/src/index.http.ts` (class MCPServer: handlePostRequest, handleGetRequest,
  isInitializeRequest, createErrorResponse, the toolInterval broadcast, cleanup);
- `src/unnamed/part_000` (weather.ts: makeNWSRequest, formatAlert, getAlerts,
  getForecast; plus the simple /mcp/call express server);
- `src/unnamed/part_001` (SSE variant: the transports table, transport.onclose,
  POST /messages, the shutdown coordinator with the 5 second force-exit timer);
- `src/unnamed/part_003` (MCPProtocolHandler.handleRequest: the protocol dispatcher).

Network effects (fetch outcomes of makeNWSRequest) are passed in as explicit
oracle values: `none` models any network/HTTP/parse failure (the catch branch of
makeNWSRequest returns null), `some payload` models a well-typed JSON payload.
JavaScript truthiness on strings (where the empty string is falsy) is modelled
explicitly by `jsTruthyOpt` and `jsOrS`.
-/

namespace MCPModel

/-! ## Session registry (the transports tables of index.http.ts and part_001)

Both servers keep a plain JS object `transports : { [sessionId: string]: Transport }`.
We model it as an association list with unique keys: `obj[k] = v` is `insertT`,
`delete obj[k]` is `eraseT`, `obj[k]` is `lookupT`. -/

abbrev Registry (τ : Type) : Type := List (String × τ)

def lookupT {τ : Type} : Registry τ → String → Option τ
  | [], _ => none
  | (k, v) :: rest, key => if k = key then some v else lookupT rest key

/-- `delete transports[key]` removes the binding for `key` (JS object keys are
unique, so dropping every pair with that key is exact). -/
def eraseT {τ : Type} : Registry τ → String → Registry τ
  | [], _ => []
  | (k, v) :: rest, key =>
    if k = key then eraseT rest key else (k, v) :: eraseT rest key

/-- `transports[key] = v` binds `key` to `v`, replacing any previous binding. -/
def insertT {τ : Type} (t : Registry τ) (key : String) (v : τ) : Registry τ :=
  (key, v) :: eraseT t key

/-- JS truthiness of `string | undefined`: `undefined` and the empty string are
falsy, every other string is truthy. -/
def jsTruthyOpt : Option String → Bool
  | none => false
  | some s => !(s == "")

/-! ## Weather data model (part_000 weather.ts)

The TypeScript interfaces AlertFeature, AlertsResponse, PointsResponse,
ForecastResponse, ForecastPeriod. All fields that the code reads defensively
(optional fields, or fields guarded with `|| []` / optional chaining) are
modelled as `Option`. -/

structure AlertFeature where
  event : Option String
  areaDesc : Option String
  severity : Option String
  status : Option String
  headline : Option String
deriving DecidableEq

structure AlertsResponse where
  /-- declared `features: AlertFeature[]` in TS, but the payload comes from an
  unchecked cast of response.json(), and getAlerts guards with
  `alertsData.features || []`; hence Option. -/
  features : Option (List AlertFeature)
deriving DecidableEq

structure PointsResponse where
  /-- `pointsData.properties?.forecast` (optional chaining plus optional field)
  collapsed into one optional forecast URL. -/
  forecastUrl : Option String
deriving DecidableEq

structure ForecastPeriod where
  name : Option String
  temperature : Option Int
  temperatureUnit : Option String
  windSpeed : Option String
  windDirection : Option String
  shortForecast : Option String
deriving DecidableEq

structure ForecastResponse where
  /-- `forecastData.properties?.periods || []`; hence Option. -/
  periods : Option (List ForecastPeriod)
deriving DecidableEq

/-- One `{type, text}` element of a tool result content array. -/
structure ContentItem where
  type : String
  text : String
deriving DecidableEq

/-- `{content: sequence of {type, text}}` returned by the weather tools. -/
structure ToolResult where
  content : List ContentItem
deriving DecidableEq

/-- JS `stringish || default`: the empty string is falsy and replaced by the
default, as in `props.event || "Unknown"`. -/
def jsOrS (o : Option String) (d : String) : String :=
  match o with
  | none => d
  | some s => if s = "" then d else s

/-- JS `number || default` rendered into a template literal: `undefined` and the
number 0 are falsy, as in `period.temperature || "Unknown"`. -/
def jsOrNum (o : Option Int) (d : String) : String :=
  match o with
  | none => d
  | some n => if n = 0 then d else toString n

/-- formatAlert (part_000 lines 36-46). -/
def formatAlert (feature : AlertFeature) : String :=
  String.intercalate "\n"
    [ "Event: " ++ jsOrS feature.event "Unknown",
      "Area: " ++ jsOrS feature.areaDesc "Unknown",
      "Severity: " ++ jsOrS feature.severity "Unknown",
      "Status: " ++ jsOrS feature.status "Unknown",
      "Headline: " ++ jsOrS feature.headline "No headline",
      "---" ]

/-- Helper for the ubiquitous single-text-element result shape. -/
def oneText (s : String) : ToolResult :=
  { content := [{ type := "text", text := s }] }

/-- getAlerts (part_000 lines 74-113). `alertsData` is the outcome of the
makeNWSRequest call: `none` is the null returned on any request failure. -/
def getAlerts (state : String) (alertsData : Option AlertsResponse) : ToolResult :=
  let stateCode := state.toUpper
  match alertsData with
  | none => oneText "Failed to retrieve alerts data"
  | some d =>
    let features := d.features.getD []
    if features.isEmpty then
      oneText ("No active alerts for " ++ stateCode)
    else
      oneText ("Active alerts for " ++ stateCode ++ ":\n\n"
        ++ String.intercalate "\n" (features.map formatAlert))

/-- One forecast period rendered as in part_000 lines 169-177. -/
def formatPeriod (period : ForecastPeriod) : String :=
  String.intercalate "\n"
    [ jsOrS period.name "Unknown" ++ ":",
      "Temperature: " ++ jsOrNum period.temperature "Unknown" ++ "°"
        ++ jsOrS period.temperatureUnit "F",
      "Wind: " ++ jsOrS period.windSpeed "Unknown" ++ " "
        ++ jsOrS period.windDirection "",
      jsOrS period.shortForecast "No forecast available",
      "---" ]

/-- getForecast (part_000 lines 115-189). The latitude/longitude enter the
function only through their rendered decimal text (toFixed(4) in URLs and
toString in messages), so they are modelled by that rendered text; `pointsData`
and `forecastData` are the outcomes of the two makeNWSRequest calls (the second
is consulted only when the first yields a truthy forecast URL, mirroring the
early returns). -/
def getForecast (latStr lonStr : String) (pointsData : Option PointsResponse)
    (forecastData : Option ForecastResponse) : ToolResult :=
  match pointsData with
  | none =>
    oneText ("Failed to retrieve grid point data for coordinates: " ++ latStr
      ++ ", " ++ lonStr
      ++ ". This location may not be supported by the NWS API (only US locations are supported).")
  | some pd =>
    if !jsTruthyOpt pd.forecastUrl then
      oneText "Failed to get forecast URL from grid point data"
    else
      match forecastData with
      | none => oneText "Failed to retrieve forecast data"
      | some fd =>
        let periods := fd.periods.getD []
        if periods.isEmpty then
          oneText "No forecast periods available"
        else
          oneText ("Forecast for " ++ latStr ++ ", " ++ lonStr ++ ":\n\n"
            ++ String.intercalate "\n" (periods.map formatPeriod))

/-! ## Protocol envelopes and the dispatcher (part_003 MCPProtocolHandler)

Correlation tokens are modelled as their string rendering; an absent id
(a notification) is `none`. Request params are one of: initialize params
(protocolVersion and negotiation fields, which the dispatcher ignores),
tool-call params (`{name, arguments}`), or some other structured value. -/

structure ToolArgs where
  /-- arguments.state, when present -/
  state : Option String
  /-- arguments.latitude rendered as decimal text, when present -/
  latitude : Option String
  /-- arguments.longitude rendered as decimal text, when present -/
  longitude : Option String
deriving DecidableEq

inductive ParamsVal
  | initP (protocolVersion : String)
  | callP (name : Option String) (arguments : Option ToolArgs)
  | otherP
deriving DecidableEq

structure MCPRequest where
  id : Option String
  method : String
  params : Option ParamsVal
deriving DecidableEq

/-- The JS destructuring `const { name, arguments: args } = params` on a
defined params value: absent properties come out undefined. -/
def paramsName : ParamsVal → Option String
  | .callP n _ => n
  | .initP _ => none
  | .otherP => none

def paramsArgs : ParamsVal → Option ToolArgs
  | .callP _ a => a
  | .initP _ => none
  | .otherP => none

/-- A tool descriptor as served by tools/list (name, description, and the
shape of the declared inputSchema: its type, property names in order, and
required property names in order). -/
structure ToolDescriptor where
  name : String
  description : String
  schemaType : String
  propNames : List String
  requiredProps : List String
deriving DecidableEq

/-- part_003 lines 29-44. -/
def getAlertsDescriptor : ToolDescriptor :=
  { name := "get_alerts",
    description := "Get weather alerts for a state",
    schemaType := "object",
    propNames := ["state"],
    requiredProps := ["state"] }

/-- part_003 lines 45-66. -/
def getForecastDescriptor : ToolDescriptor :=
  { name := "get_forecast",
    description := "Get weather forecast for a location",
    schemaType := "object",
    propNames := ["latitude", "longitude"],
    requiredProps := ["latitude", "longitude"] }

/-- The server name configured for the weather MCP server: serverInfo.name in
the initialize result (part_003 line 18) and the name served by /mcp/info
(part_000 line 228). -/
def configuredServerName : String := "weather"

inductive ResultVal
  | initResult (protocolVersion serverName serverVersion : String)
  | toolsList (tools : List ToolDescriptor)
  | callResult (r : ToolResult)
deriving DecidableEq

structure ErrObj where
  code : Int
  message : String
  data : Option String
deriving DecidableEq

/-- A JSON-RPC response object. The JS object literals in the source carry
either a result key or an error key; both are modelled as optional fields so
that well-formedness (exactly one present) is a provable property, not a
typing artifact. -/
structure MCPResponse where
  jsonrpc : String
  id : Option String
  result : Option ResultVal
  error : Option ErrObj
deriving DecidableEq

def okResp (id : Option String) (v : ResultVal) : MCPResponse :=
  { jsonrpc := "2.0", id := id, result := some v, error := none }

def errResp (id : Option String) (code : Int) (msg : String) (data : Option String) : MCPResponse :=
  { jsonrpc := "2.0", id := id, result := none, error := some { code := code, message := msg, data := data } }

/-- Rendering of an `Option String` into a JS template literal: undefined
renders as the text "undefined" (as in `Unknown tool: undefined`). -/
def jsShowOpt : Option String → String
  | none => "undefined"
  | some s => s

/-- The outcomes of the makeNWSRequest calls a tool invocation may perform:
each field is the value the corresponding fetch would deliver if made
(`none` models the null returned on any network/HTTP/parse failure). -/
structure NWSEnv where
  alerts : Option AlertsResponse
  points : Option PointsResponse
  forecastData : Option ForecastResponse
deriving DecidableEq

/-- MCPProtocolHandler.handleRequest (part_003 lines 4-118).

The JS TypeError paths all land in the catch block, which renders
`{id, error: {code: -32603, message: 'Internal error', data: error.message}}`:
- tools/call with undefined params: the destructuring on line 71 throws;
- get_alerts with undefined arguments or undefined arguments.state:
  `args.state` resp. `state.toUpperCase()` throws inside the awaited call;
- get_forecast with undefined arguments or a missing coordinate:
  `args.latitude` resp. `latitude.toFixed(4)` throws.
The data field carries the runtime error message; its exact wording is not
load-bearing for any claim, so representative TypeError texts are used. -/
def handleRequest (env : NWSEnv) (req : MCPRequest) : MCPResponse :=
  if req.method = "initialize" then
    okResp req.id (.initResult "2024-11-05" configuredServerName "1.0.0")
  else if req.method = "tools/list" then
    okResp req.id (.toolsList [getAlertsDescriptor, getForecastDescriptor])
  else if req.method = "tools/call" then
    match req.params with
    | none =>
      errResp req.id (-32603) "Internal error"
        (some "Cannot destructure property name of params as it is undefined.")
    | some p =>
      if paramsName p = some "get_alerts" then
        match paramsArgs p with
        | none =>
          errResp req.id (-32603) "Internal error"
            (some "Cannot read properties of undefined (reading state)")
        | some a =>
          match a.state with
          | none =>
            errResp req.id (-32603) "Internal error"
              (some "Cannot read properties of undefined (reading toUpperCase)")
          | some st => okResp req.id (.callResult (getAlerts st env.alerts))
      else if paramsName p = some "get_forecast" then
        match paramsArgs p with
        | none =>
          errResp req.id (-32603) "Internal error"
            (some "Cannot read properties of undefined (reading latitude)")
        | some a =>
          match a.latitude, a.longitude with
          | some la, some lo =>
            okResp req.id (.callResult (getForecast la lo env.points env.forecastData))
          | _, _ =>
            errResp req.id (-32603) "Internal error"
              (some "Cannot read properties of undefined (reading toFixed)")
      else
        errResp req.id (-32601) ("Unknown tool: " ++ jsShowOpt (paramsName p)) none
  else
    errResp req.id (-32601) ("Method not found: " ++ req.method) none

/-- A response is well-formed when exactly one of result/error is present. -/
def wellFormed (r : MCPResponse) : Prop :=
  (r.result.isSome ∧ r.error = none) ∨ (r.result = none ∧ r.error.isSome)

/-! ## The streamable-HTTP entry points (index.http.ts MCPServer)

The raw POST body, as inspected by isInitializeRequest, is either a single
envelope or an array of envelopes. The InitializeRequestSchema.safeParse
verdict on one envelope is: method equals "initialize" and the params carry
the required negotiation fields; the latter is modelled by the boolean
`validInitParams` field. -/

structure RawEnvelope where
  /-- the correlation token of the envelope, if present -/
  id : Option String
  method : String
  /-- whether the params satisfy InitializeRequestSchema's params shape -/
  validInitParams : Bool
deriving DecidableEq

inductive RawBody
  | single (e : RawEnvelope)
  | batch (es : List RawEnvelope)
deriving DecidableEq

/-- The inner isInitial of isInitializeRequest: InitializeRequestSchema.safeParse
succeeds exactly when the method is "initialize" and the params parse. -/
def isInitial (e : RawEnvelope) : Bool :=
  e.method == "initialize" && e.validInitParams

/-- MCPServer.isInitializeRequest (index.http.ts lines 450-459):
`Array.isArray(body)` dispatches to `body.some(isInitial)`. -/
def isInitializeRequest : RawBody → Bool
  | .single e => isInitial e
  | .batch es => es.any isInitial

/-- MCPServer.createErrorResponse (index.http.ts lines 439-448): the id field
is a freshly generated randomUUID, passed here as the `uuid` argument. -/
def createErrorResponse (message : String) (uuid : String) : MCPResponse :=
  { jsonrpc := "2.0",
    id := some uuid,
    result := none,
    error := some { code := -32000, message := message, data := none } }

def badRequestMsg : String := "Bad Request: invalid session ID or method."

inductive PostOutcome
  | delegated
  | bootstrapped (sid : String)
  | clientError (resp : MCPResponse)
deriving DecidableEq

/-- MCPServer.handlePostRequest (index.http.ts lines 125-167).

- `sessionId && this.transports[sessionId]`: truthy header and a live entry
  delegate to the existing transport (table unchanged).
- `!sessionId && this.isInitializeRequest(req.body)`: falsy header plus an
  initialize body create a transport whose sessionIdGenerator is randomUUID;
  the generated id (the `freshId` argument) is inserted into the table.
- otherwise: status 400 with createErrorResponse (whose id is another fresh
  randomUUID, the `errUuid` argument); table unchanged. -/
def handlePostRequest (table : Registry Unit) (sid : Option String) (body : RawBody)
    (freshId errUuid : String) : PostOutcome × Registry Unit :=
  if jsTruthyOpt sid && (lookupT table (sid.getD "")).isSome then
    (.delegated, table)
  else if !jsTruthyOpt sid && isInitializeRequest body then
    (.bootstrapped freshId, insertT table freshId ())
  else
    (.clientError (createErrorResponse badRequestMsg errUuid), table)

inductive GetOutcome
  | streamed
  | clientError (resp : MCPResponse)
deriving DecidableEq

/-- MCPServer.handleGetRequest (index.http.ts lines 103-123):
`!sessionId || !this.transports[sessionId]` yields status 400 with
createErrorResponse; otherwise the SSE stream is established. The table is
never modified by a GET. -/
def handleGetRequest (table : Registry Unit) (sid : Option String)
    (errUuid : String) : GetOutcome × Registry Unit :=
  if !jsTruthyOpt sid || !(lookupT table (sid.getD "")).isSome then
    (.clientError (createErrorResponse badRequestMsg errUuid), table)
  else
    (.streamed, table)

/-! ## The SSE variant (part_001): POST /messages, onclose, events -/

inductive MessagesOutcome
  | missingSession
  | sessionNotFound
  | delegated
deriving DecidableEq

/-- HTTP status of each POST /messages outcome (part_001 lines 289-311):
400 'Missing sessionId query parameter', 404 'Session not found', else the
call is delegated to transport.handlePostMessage. -/
def messagesStatus : MessagesOutcome → Nat
  | .missingSession => 400
  | .sessionNotFound => 404
  | .delegated => 200

/-- The POST /messages handler (part_001 lines 282-312): a falsy sessionId
query parameter is rejected with 400; an unknown one with 404; the table is
never modified here. -/
def handlePostMessages (table : Registry Unit) (sid : Option String) :
    MessagesOutcome × Registry Unit :=
  if !jsTruthyOpt sid then
    (.missingSession, table)
  else
    match lookupT table (sid.getD "") with
    | none => (.sessionNotFound, table)
    | some _ => (.delegated, table)

/-- Events on the SSE transports table (part_001):
- connect: GET /sse stores the new transport under its session id (line 260)
  and registers the onclose cleanup;
- closeFired: the transport's onclose runs `delete transports[sessionId]`
  (lines 265-268), whether from explicit close or client disconnect;
- postMsg: a POST /messages call, which never mutates the table. -/
inductive SSEEvent
  | connect (sid : String)
  | closeFired (sid : String)
  | postMsg (sid : String)
deriving DecidableEq

def sseStep (t : Registry Unit) : SSEEvent → Registry Unit
  | .connect s => insertT t s ()
  | .closeFired s => eraseT t s
  | .postMsg _ => t

def sseRun (t : Registry Unit) (es : List SSEEvent) : Registry Unit :=
  es.foldl sseStep t

/-! ## The periodic tool-list broadcast (index.http.ts lines 219-229, 428-437)

Each live transport's send either resolves or rejects; that per-transport
behavior for one broadcast tick is the `send` field below. -/

inductive SendOutcome
  | sendOk
  | sendErr (msg : String)
deriving DecidableEq

structure LiveTransport where
  sid : String
  send : SendOutcome
deriving DecidableEq

inductive SendResult
  | delivered
  | failed (msg : String)
deriving DecidableEq

/-- MCPServer.sendNotification (index.http.ts lines 428-437): it awaits
transport.send with no try/catch, so the send outcome (fulfillment or
rejection) propagates unchanged to the caller. -/
def sendNotification (t : LiveTransport) : SendResult :=
  match t.send with
  | .sendOk => .delivered
  | .sendErr m => .failed m

/-- The toolInterval broadcast (index.http.ts lines 220-229):
`Object.values(this.transports).forEach(transport => this.sendNotification(...))`.
forEach synchronously initiates sendNotification on every live transport, so
each entry of the result is computed independently of the others; the callback
neither awaits nor attaches any rejection handler, so a failed entry is an
unhandled promise rejection escaping this code. -/
def broadcastToolListChanged (ts : List LiveTransport) : List (String × SendResult) :=
  ts.map (fun t => (t.sid, sendNotification t))

def deliveredTo (rs : List (String × SendResult)) : List String :=
  (rs.filter (fun p => p.2 == SendResult.delivered)).map (fun p => p.1)

/-- The failures of a broadcast tick. No handler on the broadcast path catches
them (no try/catch encloses lines 220-229 and none exists in sendNotification),
so these are precisely the unhandled rejections the tick produces. -/
def uncaughtRejections (rs : List (String × SendResult)) : List String :=
  (rs.filter (fun p => !(p.2 == SendResult.delivered))).map (fun p => p.1)

/-! ## The shutdown coordinator (part_001 lines 371-403)

Per-session close behavior during a shutdown: the close promise settles after
`ms` milliseconds, or close throws synchronously, or the promise never
settles. Time is discrete (milliseconds). -/

inductive CloseBehavior
  | completes (ms : Nat)
  | throwsSync
  | hangs
deriving DecidableEq

structure ShutSession where
  sid : String
  close : CloseBehavior
deriving DecidableEq

/-- The for..in loop of shutdown (lines 376-390) requests transport.close() on
every session: a synchronous throw is swallowed by the try/catch, and promises
are not awaited (rejections only get a logging .catch), so the loop always
reaches every session. -/
def closeRequested : List ShutSession → List String
  | [] => []
  | s :: rest => s.sid :: closeRequested rest

/-- The force-exit timer: `setTimeout(() => process.exit(1), 5000)` (lines
399-402). -/
def FORCE_EXIT_MS : Nat := 5000

/-- The time at which a session's SSE connection is gone: when its close
completes. A close that hangs, or throws before tearing the response down,
leaves the connection open. -/
def connClosedAt : CloseBehavior → Option Nat
  | .completes t => some t
  | .throwsSync => none
  | .hangs => none

/-- The time at which every session's connection has ended (`none` when at
least one never does). With no sessions, the server has nothing to drain and
all connections are gone immediately. -/
def allConnsClosedAt : List ShutSession → Option Nat
  | [] => some 0
  | s :: rest =>
    match connClosedAt s.close, allConnsClosedAt rest with
    | some a, some b => some (max a b)
    | _, _ => none

/-- The process exit (time, code) of shutdown: `httpServer.close` fires its
callback — `process.exit(0)` (lines 393-396) — once all connections have
ended, while the force timer fires `process.exit(1)` at FORCE_EXIT_MS;
whichever happens first terminates the process. -/
def shutdownExit (ss : List ShutSession) : Nat × Nat :=
  match allConnsClosedAt ss with
  | some t => if t < FORCE_EXIT_MS then (t, 0) else (FORCE_EXIT_MS, 1)
  | none => (FORCE_EXIT_MS, 1)

/-! ## Session-scoped dispatch for the streamable-HTTP server -/

inductive SessionOutcome
  | accepted (newSessionId : Option String) (resp : MCPResponse)
  | unknownSession
  | notBootstrap
deriving DecidableEq

/-- Modelled from the spec: the session bootstrap and session-scoped dispatch
performed inside the SDK StreamableHTTPServerTransport and Server (external to
src/), per section 4.3 of the spec — a present session id must resolve in the
registry or the call is rejected as a structural error; an absent session id is
accepted only for a bootstrap (initialize) envelope, on which a fresh session
id is minted, registered, and delivered via the session header together with
the dispatcher's response; a resolved session's request is dispatched by method
(here: the repository's own dispatcher, handleRequest). The registry is the
list of live session ids. -/
def sessionHandle (table : List String) (sid : Option String) (fresh : String)
    (env : NWSEnv) (req : MCPRequest) : SessionOutcome × List String :=
  match sid with
  | some s =>
    if s ∈ table then
      (.accepted none (handleRequest env req), table)
    else
      (.unknownSession, table)
  | none =>
    if req.method = "initialize" then
      (.accepted (some fresh) (handleRequest env req), fresh :: table)
    else
      (.notBootstrap, table)

/-! ## The streamable-HTTP CallTool handler and the simple /mcp/call endpoint -/

inductive HandlerOutcome
  | ok (r : ToolResult)
  | thrown (msg : String)
deriving DecidableEq

/-- The CallToolRequestSchema handler registered by MCPServer.setupTools
(index.http.ts lines 232-379). Tool names here are the hyphenated constants
getAlertsToolName = "get-alerts" and getForecastToolName = "get-forecast".
The handler throws on falsy arguments (line 240) and on a falsy tool name
(line 244); inside a recognized tool a missing field raises the TypeError of
state.toUpperCase() resp. latitude.toFixed(4); and every unrecognized tool
name reaches line 377, which throws the plain error with message
Tool not found. A throw leaves the handler as a rejected promise, modelled by
the thrown outcome. -/
def callToolHandler (toolName : Option String) (args : Option ToolArgs)
    (env : NWSEnv) : HandlerOutcome :=
  match args with
  | none => .thrown "arguments undefined"
  | some a =>
    if !jsTruthyOpt toolName then .thrown "tool name undefined"
    else if toolName.getD "" = "get-alerts" then
      match a.state with
      | none => .thrown "Cannot read properties of undefined (reading toUpperCase)"
      | some st => .ok (getAlerts st env.alerts)
    else if toolName.getD "" = "get-forecast" then
      match a.latitude, a.longitude with
      | some la, some lo => .ok (getForecast la lo env.points env.forecastData)
      | _, _ => .thrown "Cannot read properties of undefined (reading toFixed)"
    else .thrown "Tool not found"

/-- Modelled from the spec: the SDK Server request layer (external to src/)
that renders a CallTool handler outcome into the protocol reply, per sections
4.3 and 7 of the spec — a returned payload becomes the response result, and a
handler throw is recovered at the dispatcher boundary and wrapped into an
internal protocol error carrying the underlying message. -/
def renderCallToolOutcome (rid : Option String) : HandlerOutcome → MCPResponse
  | .ok r => okResp rid (.callResult r)
  | .thrown msg => errResp rid (-32603) msg none

inductive MCPCallOutcome
  | missingTool
  | validationError (tool : String)
  | toolOk (r : ToolResult)
  | unknownTool (tool : String)
deriving DecidableEq

/-- HTTP status of each /mcp/call outcome (part_000 lines 283-346): 400 for a
missing tool name, a zod validation failure, or an unknown tool; 200 for a
successful tool result. -/
def mcpCallStatus : MCPCallOutcome → Nat
  | .missingTool => 400
  | .validationError _ => 400
  | .toolOk _ => 200
  | .unknownTool _ => 400

/-- The string code field of each /mcp/call error payload; a successful call
carries none. These are payload strings, not protocol error codes: no branch
of /mcp/call emits a JSON-RPC error envelope. -/
def mcpCallCode : MCPCallOutcome → Option String
  | .missingTool => some "MISSING_TOOL"
  | .validationError _ => some "VALIDATION_ERROR"
  | .toolOk _ => none
  | .unknownTool _ => some "UNKNOWN_TOOL"

/-- The POST /mcp/call handler (part_000 lines 283-346): a falsy tool name is
rejected with MISSING_TOOL; get_alerts and get_forecast validate their params
with the zod schemas — the parse outcome is the alertsParsed resp.
forecastParsed oracle, where none is a ZodError — and run the weather tools;
the default branch of the switch answers 400 UNKNOWN_TOOL. -/
def mcpCall (tool : Option String) (alertsParsed : Option String)
    (forecastParsed : Option (String × String)) (env : NWSEnv) : MCPCallOutcome :=
  if !jsTruthyOpt tool then .missingTool
  else if tool.getD "" = "get_alerts" then
    match alertsParsed with
    | none => .validationError "get_alerts"
    | some st => .toolOk (getAlerts st env.alerts)
  else if tool.getD "" = "get_forecast" then
    match forecastParsed with
    | none => .validationError "get_forecast"
    | some p => .toolOk (getForecast p.1 p.2 env.points env.forecastData)
  else .unknownTool (tool.getD "")

/-- The ten-session shutdown scenario of the spec: nine sessions whose close
completes quickly and one whose close hangs indefinitely. -/
def tenSessions : List ShutSession :=
  [ { sid := "s1", close := .completes 10 },
    { sid := "s2", close := .completes 10 },
    { sid := "s3", close := .completes 10 },
    { sid := "s4", close := .completes 10 },
    { sid := "s5", close := .completes 10 },
    { sid := "s6", close := .completes 10 },
    { sid := "s7", close := .completes 10 },
    { sid := "s8", close := .completes 10 },
    { sid := "s9", close := .completes 10 },
    { sid := "s10", close := .hangs } ]

/-! ## Registry lemmas -/

theorem lookupT_eraseT_self {τ : Type} (t : Registry τ) (k : String) :
    lookupT (eraseT t k) k = none := by
  induction t with
  | nil => rfl
  | cons p rest ih =>
    obtain ⟨a, v⟩ := p
    by_cases h : a = k
    · simpa [eraseT, h] using ih
    · simpa [eraseT, h, lookupT] using ih

theorem lookupT_eraseT_ne {τ : Type} (t : Registry τ) (k key : String) (h : key ≠ k) :
    lookupT (eraseT t k) key = lookupT t key := by
  induction t with
  | nil => rfl
  | cons p rest ih =>
    obtain ⟨a, v⟩ := p
    by_cases hp : a = k
    · have hkey : ¬ a = key := fun hk => h (hk ▸ hp)
      simp [eraseT, hp, lookupT, hkey, Ne.symm h, ih]
    · by_cases hq : a = key <;> simp [eraseT, hp, lookupT, hq, h, ih]

theorem eraseT_of_lookupT_none {τ : Type} (t : Registry τ) (k : String)
    (h : lookupT t k = none) : eraseT t k = t := by
  induction t with
  | nil => rfl
  | cons p rest ih =>
    obtain ⟨a, v⟩ := p
    by_cases hp : a = k
    · simp [lookupT, hp] at h
    · simp only [lookupT, if_neg hp] at h
      simp [eraseT, hp, ih h]

theorem eraseT_idem {τ : Type} (t : Registry τ) (k : String) :
    eraseT (eraseT t k) k = eraseT t k :=
  eraseT_of_lookupT_none _ _ (lookupT_eraseT_self t k)

/-- C9 (confirmed): removal of a session id from the registry is idempotent —
removing an absent id (including the same id twice) leaves the transports
table unchanged, and removing a present id leaves every other entry, hence
every other lookup, unchanged. -/
theorem c9_remove_idempotent {τ : Type} (t : Registry τ) (k k2 : String) :
    (lookupT t k = none → eraseT t k = t)
    ∧ eraseT (eraseT t k) k = eraseT t k
    ∧ (k2 ≠ k → lookupT (eraseT t k) k2 = lookupT t k2) :=
  ⟨eraseT_of_lookupT_none t k, eraseT_idem t k, lookupT_eraseT_ne t k k2⟩

/-- Witness for C9 on a concrete table. -/
theorem c9_remove_idempotent_witness :
    eraseT ([("a", ())] : Registry Unit) "b" = [("a", ())]
    ∧ eraseT (eraseT ([("a", ())] : Registry Unit) "b") "b"
        = eraseT ([("a", ())] : Registry Unit) "b"
    ∧ lookupT (eraseT ([("a", ())] : Registry Unit) "b") "a"
        = lookupT ([("a", ())] : Registry Unit) "a" :=
  ⟨(c9_remove_idempotent [("a", ())] "b" "a").1 (by decide),
   (c9_remove_idempotent [("a", ())] "b" "a").2.1,
   (c9_remove_idempotent [("a", ())] "b" "a").2.2 (by decide)⟩

/-- C10 (confirmed): getAlerts and getForecast are total on their declared
inputs — for every state string, every coordinate rendering, and every outcome
of the underlying NWS requests (null on failure or any well-typed payload,
including empty feature and period lists) the returned content is a list of
exactly one element of type "text"; being total Lean functions, they never
throw. -/
theorem c10_tools_total_single_text (state : String) (alertsData : Option AlertsResponse)
    (latStr lonStr : String) (pointsData : Option PointsResponse)
    (forecastData : Option ForecastResponse) :
    (getAlerts state alertsData).content.map ContentItem.type = ["text"]
    ∧ (getForecast latStr lonStr pointsData forecastData).content.map ContentItem.type = ["text"] := by
  constructor
  · cases alertsData with
    | none => rfl
    | some d =>
      by_cases h : (d.features.getD []).isEmpty <;>
        simp [getAlerts, oneText, h]
  · cases pointsData with
    | none => rfl
    | some pd =>
      by_cases hu : jsTruthyOpt pd.forecastUrl
      · cases forecastData with
        | none => simp [getForecast, oneText, hu]
        | some fd =>
          by_cases hp : (fd.periods.getD []).isEmpty <;>
            simp [getForecast, oneText, hu, hp]
      · simp [getForecast, oneText, hu]

/-- C1 (counterexample): a POST carrying the session identifier "" — an
identifier that was never issued and is not a key of the (empty) transports
table — together with an initialize body is not rejected: JS truthiness makes
the empty header falsy, so handlePostRequest takes the bootstrap branch,
responds successfully and inserts a fresh session, contradicting the claim
that every such call gets a client-error response and leaves the table
unchanged. -/
theorem c1_empty_sid_bootstraps :
    lookupT ([] : Registry Unit) "" = none
    ∧ handlePostRequest [] (some "")
        (RawBody.single { id := some "1", method := "initialize", validInitParams := true })
        "u-1" "e-1"
      = (PostOutcome.bootstrapped "u-1", [("u-1", ())]) := by
  decide

/-- C1 (amended, proved): for every inbound call carrying a nonempty session
identifier that is not a key of the live-transports table, the POST handler,
the GET handler and the SSE messages handler each respond with a client-error
status (400 with a structural protocol error for POST/GET, 404 for /messages)
and leave the transports table unchanged, never inserting a session under that
identifier; an empty-string identifier is treated as absent instead. -/
theorem c1_unknown_session_rejected (table : Registry Unit) (s : String) (body : RawBody)
    (freshId errU errU2 : String) (hs : s ≠ "") (hl : lookupT table s = none) :
    handlePostRequest table (some s) body freshId errU
      = (PostOutcome.clientError (createErrorResponse badRequestMsg errU), table)
    ∧ handleGetRequest table (some s) errU2
      = (GetOutcome.clientError (createErrorResponse badRequestMsg errU2), table)
    ∧ handlePostMessages table (some s) = (MessagesOutcome.sessionNotFound, table)
    ∧ 400 ≤ messagesStatus MessagesOutcome.sessionNotFound
    ∧ messagesStatus MessagesOutcome.sessionNotFound < 500 := by
  have hb : (s == "") = false := by
    simpa using hs
  refine ⟨?_, ?_, ?_, by decide, by decide⟩
  · simp [handlePostRequest, jsTruthyOpt, hb, hl]
  · simp [handleGetRequest, jsTruthyOpt, hb, hl]
  · simp [handlePostMessages, jsTruthyOpt, hb, hl]

/-- Witness for C1 (amended) at a concrete table and identifier. -/
theorem c1_unknown_session_rejected_witness :
    handlePostRequest [("live", ())] (some "ghost")
        (RawBody.single { id := some "1", method := "initialize", validInitParams := true })
        "u-1" "e-1"
      = (PostOutcome.clientError (createErrorResponse badRequestMsg "e-1"), [("live", ())])
    ∧ handleGetRequest [("live", ())] (some "ghost") "e-2"
      = (GetOutcome.clientError (createErrorResponse badRequestMsg "e-2"), [("live", ())])
    ∧ handlePostMessages [("live", ())] (some "ghost")
      = (MessagesOutcome.sessionNotFound, [("live", ())])
    ∧ 400 ≤ messagesStatus MessagesOutcome.sessionNotFound
    ∧ messagesStatus MessagesOutcome.sessionNotFound < 500 :=
  c1_unknown_session_rejected [("live", ())] "ghost"
    (RawBody.single { id := some "1", method := "initialize", validInitParams := true })
    "u-1" "e-1" "e-2" (by decide) (by decide)

/-- C2 (counterexample): a batch (array) body whose sole element is an
initialize envelope satisfies isInitializeRequest — `Array.isArray(body)`
dispatches to `body.some(isInitial)` — so a POST without a session identifier
carrying that batch bootstraps a new session, contradicting the claim that a
batch body is never accepted for bootstrap. -/
theorem c2_batch_bootstrap_accepted :
    isInitializeRequest
        (RawBody.batch [{ id := some "1", method := "initialize", validInitParams := true }])
      = true
    ∧ handlePostRequest [] none
        (RawBody.batch [{ id := some "1", method := "initialize", validInitParams := true }])
        "u-1" "e-1"
      = (PostOutcome.bootstrapped "u-1", [("u-1", ())]) := by
  decide

/-- C2 (amended, proved): a POST body arriving without a session identifier is
treated as a bootstrap exactly when isInitializeRequest accepts it, which holds
for a single initialize envelope and also for a batch (array) body at least one
element of which is an initialize envelope. -/
theorem c2_bootstrap_condition (table : Registry Unit) (body : RawBody)
    (freshId errUuid : String) :
    ((handlePostRequest table none body freshId errUuid).1 = PostOutcome.bootstrapped freshId
      ↔ isInitializeRequest body = true)
    ∧ isInitializeRequest body =
        (match body with
         | RawBody.single e => isInitial e
         | RawBody.batch es => es.any isInitial) := by
  constructor
  · cases h : isInitializeRequest body <;>
      simp [handlePostRequest, jsTruthyOpt, h]
  · cases body <;> rfl

/-- C3 (counterexample): the structural error response built by
createErrorResponse carries a freshly generated UUID as its id, not the
correlation token of the originating request — here the rejected POST body is
an envelope with token "1", yet the error response's id is the generated
UUID. -/
theorem c3_createErrorResponse_id_not_request_token :
    (handlePostRequest [] (some "ghost")
        (RawBody.single { id := some "1", method := "tools/list", validInitParams := false })
        "u-1" "3fa85f64-5717-4562-b3fc-2c963f66afa6").1
      = PostOutcome.clientError
          (createErrorResponse badRequestMsg "3fa85f64-5717-4562-b3fc-2c963f66afa6")
    ∧ (createErrorResponse badRequestMsg "3fa85f64-5717-4562-b3fc-2c963f66afa6").id
        ≠ some "1" := by
  decide

/-- C3 (amended, proved): every response envelope the dispatcher
(MCPProtocolHandler.handleRequest) produces is well-formed — its id equals the
correlation token of the originating request and exactly one of result/error is
present — across success, method-not-found and internal-error responses; the
structural error responses built by createErrorResponse also carry exactly one
of result/error (always an error), but their id is the freshly generated UUID
passed to them, not the originating request's token. -/
theorem c3_responses_wellformed :
    (∀ env req, (handleRequest env req).id = req.id ∧ wellFormed (handleRequest env req))
    ∧ (∀ msg uuid, (createErrorResponse msg uuid).id = some uuid
        ∧ wellFormed (createErrorResponse msg uuid)) := by
  constructor
  · intro env req
    have hok : ∀ i v, (okResp i v).id = i ∧ wellFormed (okResp i v) :=
      fun i v => ⟨rfl, Or.inl ⟨rfl, rfl⟩⟩
    have herr : ∀ i c m d, (errResp i c m d).id = i ∧ wellFormed (errResp i c m d) :=
      fun i c m d => ⟨rfl, Or.inr ⟨rfl, rfl⟩⟩
    unfold handleRequest
    repeat' split
    all_goals first
      | exact hok _ _
      | exact herr _ _ _ _
  · intro msg uuid
    exact ⟨rfl, Or.inr ⟨rfl, rfl⟩⟩

/-- C4 (confirmed): the bootstrap envelope with method initialize and a
protocolVersion parameter, submitted with no session id, is accepted: the
outcome carries the freshly minted session id together with a response whose
result is the initialize result with serverInfo name equal to the configured
server name; a subsequent capability-list (tools/list) request using that
session id returns exactly the two configured capability descriptors,
get_alerts then get_forecast, in their declared order. -/
theorem c4_bootstrap_scenario (env env2 : NWSEnv) (rid1 rid2 : Option String)
    (pv fresh fresh2 : String) :
    sessionHandle [] none fresh env
        { id := rid1, method := "initialize", params := some (ParamsVal.initP pv) }
      = (SessionOutcome.accepted (some fresh)
          (okResp rid1 (ResultVal.initResult "2024-11-05" configuredServerName "1.0.0")),
         [fresh])
    ∧ (sessionHandle [fresh] (some fresh) fresh2 env2
        { id := rid2, method := "tools/list", params := none }).1
      = SessionOutcome.accepted none
          (okResp rid2 (ResultVal.toolsList [getAlertsDescriptor, getForecastDescriptor]))
    ∧ [getAlertsDescriptor, getForecastDescriptor].map ToolDescriptor.name
        = ["get_alerts", "get_forecast"] := by
  refine ⟨?_, ?_, by decide⟩
  · simp [sessionHandle, handleRequest]
  · simp [sessionHandle, handleRequest]

/-- C5 (counterexample): in the streamable-HTTP server, a capability-invoke
naming the unconfigured tool "unknown-tool" makes the CallTool handler reach
index.http.ts line 377 and throw the plain Tool-not-found error, which the
request layer wraps into the internal protocol error -32603, not the
method-not-found error -32601 — contradicting the claim that every
capability-invoke with an unconfigured name yields a method-not-found error
and not an internal error. -/
theorem c5_streamable_unknown_tool_internal_error :
    callToolHandler (some "unknown-tool")
        (some { state := none, latitude := none, longitude := none })
        { alerts := none, points := none, forecastData := none }
      = HandlerOutcome.thrown "Tool not found"
    ∧ (renderCallToolOutcome (some "9") (HandlerOutcome.thrown "Tool not found")).error.map
        ErrObj.code = some (-32603)
    ∧ (renderCallToolOutcome (some "9") (HandlerOutcome.thrown "Tool not found")).error.map
        ErrObj.code ≠ some (-32601) := by
  decide

/-- C5 (amended, proved): a capability-invoke naming an unconfigured tool is
rejected without harming the session, but the error shape differs per server:
the part_003 dispatcher answers the method-not-found protocol error -32601
(not the internal -32603) and the session keeps dispatching subsequent
requests; the streamable-HTTP CallTool handler instead throws the plain
Tool-not-found error, wrapped by the request layer as the internal protocol
error -32603; and the /mcp/call endpoint answers HTTP 400 with the payload
code UNKNOWN_TOOL and no protocol error envelope; a delegated POST to an
existing session never mutates the transports table, so the session stays
live in every case. -/
theorem c5_unknown_tool_dispatch (env : NWSEnv) (table : List String)
    (s fresh name : String) (rid : Option String) (args : Option ToolArgs) (a : ToolArgs)
    (ap : Option String) (fp : Option (String × String))
    (htable : Registry Unit) (hsid : String) (hbody : RawBody) (hf he : String)
    (hs : s ∈ table) (h1 : name ≠ "get_alerts") (h2 : name ≠ "get_forecast")
    (h3 : name ≠ "get-alerts") (h4 : name ≠ "get-forecast") (h5 : name ≠ "")
    (hne : hsid ≠ "") (hlive : (lookupT htable hsid).isSome = true) :
    (sessionHandle table (some s) fresh env
        { id := rid, method := "tools/call",
          params := some (ParamsVal.callP (some name) args) }).1
      = SessionOutcome.accepted none (errResp rid (-32601) ("Unknown tool: " ++ name) none)
    ∧ (errResp rid (-32601) ("Unknown tool: " ++ name) none).error.map ErrObj.code
        = some (-32601)
    ∧ (errResp rid (-32601) ("Unknown tool: " ++ name) none).error.map ErrObj.code
        ≠ some (-32603)
    ∧ (sessionHandle table (some s) fresh env
        { id := rid, method := "tools/call",
          params := some (ParamsVal.callP (some name) args) }).2 = table
    ∧ (∀ env2 fresh2 req2,
        (sessionHandle table (some s) fresh2 env2 req2).1
          = SessionOutcome.accepted none (handleRequest env2 req2))
    ∧ callToolHandler (some name) (some a) env = HandlerOutcome.thrown "Tool not found"
    ∧ (renderCallToolOutcome rid (callToolHandler (some name) (some a) env)).error.map
        ErrObj.code = some (-32603)
    ∧ mcpCall (some name) ap fp env = MCPCallOutcome.unknownTool name
    ∧ mcpCallStatus (mcpCall (some name) ap fp env) = 400
    ∧ mcpCallCode (mcpCall (some name) ap fp env) = some "UNKNOWN_TOOL"
    ∧ handlePostRequest htable (some hsid) hbody hf he = (PostOutcome.delegated, htable) := by
  have hb5 : (name == "") = false := by simpa using h5
  have hbs : (hsid == "") = false := by simpa using hne
  refine ⟨?_, rfl, by simp [errResp], ?_, ?_, ?_, ?_, ?_, ?_, ?_, ?_⟩
  · simp [sessionHandle, handleRequest, paramsName, jsShowOpt, hs, h1, h2]
  · simp [sessionHandle, hs]
  · intro env2 fresh2 req2
    simp [sessionHandle, hs]
  · simp [callToolHandler, jsTruthyOpt, hb5, h3, h4]
  · simp [callToolHandler, jsTruthyOpt, hb5, h3, h4, renderCallToolOutcome, errResp]
  · simp [mcpCall, jsTruthyOpt, hb5, h1, h2]
  · simp [mcpCall, jsTruthyOpt, hb5, h1, h2, mcpCallStatus]
  · simp [mcpCall, jsTruthyOpt, hb5, h1, h2, mcpCallCode]
  · simp [handlePostRequest, jsTruthyOpt, hbs, hlive]

/-- Witness for C5 (amended) at a concrete session table, unknown tool name
and live streamable session. -/
theorem c5_unknown_tool_dispatch_witness :
    (sessionHandle ["sess-1"] (some "sess-1") "f-1"
        { alerts := none, points := none, forecastData := none }
        { id := some "9", method := "tools/call",
          params := some (ParamsVal.callP (some "unknown-tool")
            (some { state := none, latitude := none, longitude := none })) }).1
      = SessionOutcome.accepted none
          (errResp (some "9") (-32601) ("Unknown tool: " ++ "unknown-tool") none)
    ∧ callToolHandler (some "unknown-tool")
        (some { state := none, latitude := none, longitude := none })
        { alerts := none, points := none, forecastData := none }
      = HandlerOutcome.thrown "Tool not found"
    ∧ mcpCall (some "unknown-tool") none none
        { alerts := none, points := none, forecastData := none }
      = MCPCallOutcome.unknownTool "unknown-tool"
    ∧ handlePostRequest [("live", ())] (some "live")
        (RawBody.single { id := some "1", method := "initialize", validInitParams := true })
        "u-1" "e-1"
      = (PostOutcome.delegated, [("live", ())]) := by
  obtain ⟨w1, w2, w3, w4, w5, w6, w7, w8, w9, w10, w11⟩ :=
    c5_unknown_tool_dispatch
      { alerts := none, points := none, forecastData := none }
      ["sess-1"] "sess-1" "f-1" "unknown-tool" (some "9")
      (some { state := none, latitude := none, longitude := none })
      { state := none, latitude := none, longitude := none }
      none none [("live", ())] "live"
      (RawBody.single { id := some "1", method := "initialize", validInitParams := true })
      "u-1" "e-1"
      (by decide) (by decide) (by decide) (by decide) (by decide) (by decide)
      (by decide) (by decide)
  exact ⟨w1, w6, w8, w11⟩

theorem sseRun_lookup_none (es : List SSEEvent) (t : Registry Unit) (sid : String)
    (h0 : lookupT t sid = none)
    (h : ∀ s, SSEEvent.connect s ∈ es → s ≠ sid) :
    lookupT (sseRun t es) sid = none := by
  induction es generalizing t with
  | nil => exact h0
  | cons e rest ih =>
    have hrest : ∀ s, SSEEvent.connect s ∈ rest → s ≠ sid :=
      fun s hm => h s (List.mem_cons_of_mem _ hm)
    cases e with
    | connect s =>
      refine ih (insertT t s ()) ?_ hrest
      have hne : s ≠ sid := h s (List.mem_cons_self _ _)
      have : lookupT (eraseT t s) sid = lookupT t sid :=
        lookupT_eraseT_ne t s sid (fun hssym => hne hssym.symm)
      simp [insertT, lookupT, hne, this, h0]
    | closeFired s =>
      refine ih (eraseT t s) ?_ hrest
      by_cases hss : sid = s
      · simpa [hss] using lookupT_eraseT_self t s
      · simpa [lookupT_eraseT_ne t s sid hss] using h0
    | postMsg s => exact ih t h0 hrest

/-- C6 (confirmed): once a transport's close fires (explicit close or client
disconnect running its onclose callback), its session identifier is deleted
from the live-transports table; provided the identifier is never re-issued to
a later connection (session ids are fresh UUIDs), every subsequent lookup of
that identifier fails, so a subsequent POST /messages carrying it is not
delegated to any session and leaves the table unchanged. -/
theorem c6_closed_session_unusable (init : Registry Unit) (pre post : List SSEEvent)
    (sid : String) (h : ∀ s, SSEEvent.connect s ∈ post → s ≠ sid) :
    lookupT (sseRun init (pre ++ SSEEvent.closeFired sid :: post)) sid = none
    ∧ (handlePostMessages (sseRun init (pre ++ SSEEvent.closeFired sid :: post))
        (some sid)).1 ≠ MessagesOutcome.delegated
    ∧ (handlePostMessages (sseRun init (pre ++ SSEEvent.closeFired sid :: post))
        (some sid)).2 = sseRun init (pre ++ SSEEvent.closeFired sid :: post) := by
  have hrun : sseRun init (pre ++ SSEEvent.closeFired sid :: post)
      = sseRun (eraseT (sseRun init pre) sid) post := by
    simp [sseRun, List.foldl_append, sseStep]
  have hnone : lookupT (sseRun init (pre ++ SSEEvent.closeFired sid :: post)) sid = none := by
    rw [hrun]
    exact sseRun_lookup_none post _ sid (lookupT_eraseT_self _ sid) h
  refine ⟨hnone, ?_, ?_⟩
  · cases hb : jsTruthyOpt (some sid) <;>
      simp [handlePostMessages, hb, hnone]
  · cases hb : jsTruthyOpt (some sid) <;>
      simp [handlePostMessages, hb, hnone]

/-- Witness for C6 on a concrete event trace: connect "a", then its close
fires, then a POST /messages for "a". -/
theorem c6_closed_session_unusable_witness :
    lookupT (sseRun []
        ([SSEEvent.connect "a"] ++ SSEEvent.closeFired "a" :: [SSEEvent.postMsg "a"])) "a"
      = none
    ∧ (handlePostMessages (sseRun []
        ([SSEEvent.connect "a"] ++ SSEEvent.closeFired "a" :: [SSEEvent.postMsg "a"]))
        (some "a")).1 ≠ MessagesOutcome.delegated
    ∧ (handlePostMessages (sseRun []
        ([SSEEvent.connect "a"] ++ SSEEvent.closeFired "a" :: [SSEEvent.postMsg "a"]))
        (some "a")).2
      = sseRun [] ([SSEEvent.connect "a"] ++ SSEEvent.closeFired "a" :: [SSEEvent.postMsg "a"]) :=
  c6_closed_session_unusable [] [SSEEvent.connect "a"] [SSEEvent.postMsg "a"] "a"
    (by intro s hs; simp at hs)

/-- C7 (code bug, evaluated at the failing input): on a broadcast tick with
two live transports where the first transport's send rejects, every transport
is still attempted and the second still receives the notification — but the
first transport's failure surfaces as an unhandled rejection, because neither
the forEach callback of the toolInterval broadcast nor sendNotification
catches it, contradicting the claim that such failures are caught and
logged. -/
theorem c7_broadcast_failure_unhandled :
    broadcastToolListChanged
        [{ sid := "s1", send := SendOutcome.sendErr "boom" },
         { sid := "s2", send := SendOutcome.sendOk }]
      = [("s1", SendResult.failed "boom"), ("s2", SendResult.delivered)]
    ∧ deliveredTo (broadcastToolListChanged
        [{ sid := "s1", send := SendOutcome.sendErr "boom" },
         { sid := "s2", send := SendOutcome.sendOk }])
      = ["s2"]
    ∧ uncaughtRejections (broadcastToolListChanged
        [{ sid := "s1", send := SendOutcome.sendErr "boom" },
         { sid := "s2", send := SendOutcome.sendOk }])
      = ["s1"] := by
  decide

theorem allConnsClosedAt_none_of_hangs (ss : List ShutSession) (s : ShutSession)
    (hm : s ∈ ss) (hc : connClosedAt s.close = none) :
    allConnsClosedAt ss = none := by
  induction ss with
  | nil => cases hm
  | cons p rest ih =>
    rcases List.mem_cons.mp hm with h | h
    · subst h
      simp only [allConnsClosedAt, hc]
    · have := ih h
      simp only [allConnsClosedAt, this]
      cases connClosedAt p.close <;> rfl

/-- C8 (confirmed): the shutdown coordinator requests close() on every live
session regardless of earlier failures, and the process exits no later than
the 5000 ms force-exit boundary; when every connection ends before the
boundary the process exits at that completion time with code 0, and when any
session's close hangs the process exits exactly at the boundary with code 1,
with close still requested on all the other sessions. -/
theorem c8_shutdown_bounded (ss : List ShutSession) :
    closeRequested ss = ss.map (fun s => s.sid)
    ∧ (shutdownExit ss).1 ≤ FORCE_EXIT_MS
    ∧ (∀ s, s ∈ ss → s.close = CloseBehavior.hangs →
        shutdownExit ss = (FORCE_EXIT_MS, 1))
    ∧ (∀ t, allConnsClosedAt ss = some t → t < FORCE_EXIT_MS →
        shutdownExit ss = (t, 0)) := by
  refine ⟨?_, ?_, ?_, ?_⟩
  · induction ss with
    | nil => rfl
    | cons p rest ih => simp [closeRequested, ih]
  · unfold shutdownExit
    cases h : allConnsClosedAt ss with
    | none => simp
    | some t =>
      by_cases ht : t < FORCE_EXIT_MS <;> simp [ht]
      exact Nat.le_of_lt ht
  · intro s hm hc
    have : allConnsClosedAt ss = none :=
      allConnsClosedAt_none_of_hangs ss s hm (by simp [hc, connClosedAt])
    simp [shutdownExit, this]
  · intro t h ht
    simp [shutdownExit, h, ht]

/-- Witness for C8 on the ten-session scenario (nine quick closes, one
hanging): close is requested on every session and the process exits at the
5000 ms boundary with code 1. -/
theorem c8_shutdown_bounded_witness :
    closeRequested tenSessions = tenSessions.map (fun s => s.sid)
    ∧ shutdownExit tenSessions = (FORCE_EXIT_MS, 1) :=
  ⟨(c8_shutdown_bounded tenSessions).1,
   (c8_shutdown_bounded tenSessions).2.2.1
     { sid := "s10", close := CloseBehavior.hangs } (by decide) rfl⟩

end MCPModel
